import Mathlib

/-!
Shallow embedding of the DigitalOcean cloud-provider plugin of the
Kubernetes cluster-autoscaler (`cluster-autoscaler/cloudprovider/digitalocean`),
centred on `Manager.Refresh` and `newManager` from `digitalocean_manager.go`.

Go errors are modelled as `String` values (the message carried by the error).
The outcomes of the external API calls made during a refresh
(`sizeLister.List` and `client.ListNodePools`) are supplied as an explicit
environment `RefreshEnv`; opaque interface values (the godo Kubernetes client
and the size lister) are modelled as abstract `Nat` handles, since `Refresh`
only passes them along.
-/

set_option autoImplicit false

namespace DigitalOcean

/-- Per-droplet-size capacity data (`capacity` struct: `cpus` and `memory`),
as consumed by `Manager.Refresh` via `cap.cpus` / `cap.memory`. -/
structure capacity where
  cpus : Int
  memory : Int
  deriving Repr, DecidableEq

/-- Status of a node (`godo.KubernetesNodeStatus`). -/
structure KubernetesNodeStatus where
  State : String
  deriving Repr, DecidableEq

/-- A node of a pool (`godo.KubernetesNode`). -/
structure KubernetesNode where
  ID : String
  DropletID : String
  Status : KubernetesNodeStatus
  deriving Repr, DecidableEq

/-- A DOKS node pool (`godo.KubernetesNodePool`), with the fields read by
`Manager.Refresh`. -/
structure KubernetesNodePool where
  ID : String
  Name : String
  Size : String
  MinNodes : Int
  MaxNodes : Int
  AutoScale : Bool
  Nodes : List KubernetesNode
  deriving Repr, DecidableEq

/-- A droplet size (`godo.Size`), with the fields relevant to capacity. -/
structure Size where
  Slug : String
  Memory : Int
  Vcpus : Int
  deriving Repr, DecidableEq

/-- A node group as built by `Manager.Refresh` (the fields assigned at
`digitalocean_manager.go:155-164`); the godo client stored in the group is an
abstract handle. -/
structure NodeGroup where
  id : String
  clusterID : String
  client : Nat
  nodePool : KubernetesNodePool
  minSize : Int
  maxSize : Int
  cpus : Int
  memory : Int
  deriving Repr, DecidableEq

/-- The manager state (`Manager` struct, `digitalocean_manager.go:55-61`).
The `client` and `sizeLister` interface values are abstract handles; the Go
`map[string]capacity` is modelled as an association list where the most
recent insertion is at the head. -/
structure Manager where
  client : Nat
  clusterID : String
  nodeGroups : List NodeGroup
  sizeLister : Nat
  capacityByDropletSlug : List (String × capacity)
  deriving Repr, DecidableEq

/-- The cloud-provider configuration (`Config` struct). -/
structure Config where
  ClusterID : String
  Token : String
  URL : String
  deriving Repr, DecidableEq

/-- Lookup in the association-list model of a Go map: first match wins
(insertions are prepended, so the most recent binding shadows older ones). -/
def mapLookup (t : List (String × capacity)) (k : String) : Option capacity :=
  match t with
  | [] => none
  | (k', v) :: rest => if k' = k then some v else mapLookup rest k

/-- Modelled from the spec: the capacity lookup table's data source is not in
this fragment; the spec describes it as "a mapping from machine-size
identifier to CPU/memory capacity" derived from the droplet-size listing,
so each listed size contributes its slug, vcpu count and memory. -/
def buildCapacityMap (sizes : List Size) : List (String × capacity) :=
  sizes.foldl (fun t s => (s.Slug, { cpus := s.Vcpus, memory := s.Memory }) :: t) []

/-- Modelled from the spec: the body of `ensureCapacityMap` is not under
`src/` (only its call site in `Refresh` is). Per the spec, the capacity
lookup table is "populated once (lazily)" from the size listing and any
failure aborts without mutating state: if the table is already populated the
call is a no-op, otherwise it lists droplet sizes and installs the table,
propagating a listing error unchanged. Returns the updated manager and the
optional error. -/
def Manager.ensureCapacityMap (m : Manager) (sizesResult : Except String (List Size)) :
    Manager × Option String :=
  if m.capacityByDropletSlug.isEmpty then
    match sizesResult with
    | .error e => (m, some e)
    | .ok sizes => ({ m with capacityByDropletSlug := buildCapacityMap sizes }, none)
  else (m, none)

/-- The error built at `digitalocean_manager.go:149`:
`fmt.Errorf("no capacity data found for droplet slug %q", nodePool.Size)`. -/
def noCapacityDataError (slug : String) : String :=
  "no capacity data found for droplet slug \"" ++ slug ++ "\""

/-- The loop of `Manager.Refresh` (`digitalocean_manager.go:141-165`): walk
the pool list in order, skip pools with `AutoScale` false, abort with an
error at the first retained pool whose size slug has no capacity entry, and
otherwise append a `NodeGroup` built from the pool and its capacity. -/
def buildGroups (client : Nat) (clusterID : String) (capMap : List (String × capacity)) :
    List KubernetesNodePool → Except String (List NodeGroup)
  | [] => .ok []
  | nodePool :: rest =>
    if !nodePool.AutoScale then
      buildGroups client clusterID capMap rest
    else
      match mapLookup capMap nodePool.Size with
      | none => .error (noCapacityDataError nodePool.Size)
      | some c =>
        match buildGroups client clusterID capMap rest with
        | .error e => .error e
        | .ok gs =>
          .ok ({ id := nodePool.ID, clusterID := clusterID, client := client,
                 nodePool := nodePool, minSize := nodePool.MinNodes,
                 maxSize := nodePool.MaxNodes, cpus := c.cpus,
                 memory := c.memory } :: gs)

deriving instance DecidableEq for Except

/-- Outcomes of the external calls a single `Refresh` may make: the droplet
size listing consumed by `ensureCapacityMap`, and the node-pool listing
returned by `client.ListNodePools`. -/
structure RefreshEnv where
  listSizes : Except String (List Size)
  listNodePools : Except String (List KubernetesNodePool)
  deriving Repr, DecidableEq

/-- Embedding of `Manager.Refresh` (`digitalocean_manager.go:128-173`), instrumented with
the number of `ListNodePools` invocations it performs. It returns the
manager state after the call, the returned error (`none` for a nil error),
and the invocation count. Errors from `ensureCapacityMap` and
`ListNodePools` are returned unchanged; on success the node-group cache is
replaced by the freshly built list. -/
def RefreshCounted (m : Manager) (env : RefreshEnv) : (Manager × Option String) × Nat :=
  let em := m.ensureCapacityMap env.listSizes
  match em.2 with
  | some e => ((em.1, some e), 0)
  | none =>
    match env.listNodePools with
    | .error e => ((em.1, some e), 1)
    | .ok nodePools =>
      match buildGroups em.1.client em.1.clusterID em.1.capacityByDropletSlug nodePools with
      | .error e => ((em.1, some e), 1)
      | .ok group => (({ em.1 with nodeGroups := group }, none), 1)

/-- Embedding of `Manager.Refresh`: final state and returned error. -/
def Manager.Refresh (m : Manager) (env : RefreshEnv) : Manager × Option String :=
  (RefreshCounted m env).1

/-- How the configuration bytes reach `newManager`
(`digitalocean_manager.go:78-96`): the reader may be nil (the config stays
its zero value), reading or JSON-unmarshalling may fail, or a `Config` is
parsed. -/
inductive ConfigInput where
  | nilReader
  | readError (e : String)
  | unmarshalError (e : String)
  | parsed (cfg : Config)
  deriving Repr, DecidableEq

/-- The zero value of `Config`. -/
def Config.zero : Config := { ClusterID := "", Token := "", URL := "" }

/-- The tail of `newManager` after the config is determined
(`digitalocean_manager.go:91-123`): validate token and cluster ID, build the
godo client (its outcome is supplied as `godoNew`, yielding abstract handles
for the Kubernetes service and the size lister), and construct the manager
with an empty node-group list and an empty capacity map. -/
def newManagerFromConfig (cfg : Config) (godoNew : Except String (Nat × Nat)) :
    Except String Manager :=
  if cfg.Token = "" then .error "access token is not provided"
  else if cfg.ClusterID = "" then .error "cluster ID is not provided"
  else
    match godoNew with
    | .error e => .error ("couldn't initialize DigitalOcean client: " ++ e)
    | .ok (kube, sizes) =>
      .ok { client := kube, clusterID := cfg.ClusterID, nodeGroups := [],
            sizeLister := sizes, capacityByDropletSlug := [] }

/-- Embedding of `newManager` (`digitalocean_manager.go:78-124`): propagate read and
unmarshal errors, use the zero config when the reader is nil, then validate
and construct. -/
def newManager (input : ConfigInput) (godoNew : Except String (Nat × Nat)) :
    Except String Manager :=
  match input with
  | .readError e => .error e
  | .unmarshalError e => .error e
  | .nilReader => newManagerFromConfig Config.zero godoNew
  | .parsed cfg => newManagerFromConfig cfg godoNew

/-! ## Concrete sample data (for evaluating the theorems on closed inputs) -/

/-- A sample auto-scalable pool. -/
def wPool1 : KubernetesNodePool :=
  { ID := "1", Name := "pool-1", Size := "s-1vcpu-1gb", MinNodes := 1, MaxNodes := 5,
    AutoScale := true, Nodes := [] }

/-- A sample pool with auto-scaling disabled. -/
def wPool2 : KubernetesNodePool :=
  { ID := "2", Name := "pool-2", Size := "s-1vcpu-1gb", MinNodes := 2, MaxNodes := 6,
    AutoScale := false, Nodes := [] }

/-- A sample auto-scalable pool whose size slug has no capacity entry. -/
def wPoolMissing : KubernetesNodePool :=
  { ID := "3", Name := "pool-3", Size := "s-unknown", MinNodes := 1, MaxNodes := 3,
    AutoScale := true, Nodes := [] }

/-- A sample droplet-size listing. -/
def wSizes : List Size := [{ Slug := "s-1vcpu-1gb", Memory := 1024, Vcpus := 1 }]

/-- A freshly constructed manager (empty caches). -/
def wManager : Manager :=
  { client := 7, clusterID := "cid", nodeGroups := [], sizeLister := 8,
    capacityByDropletSlug := [] }

/-- The manager `wManager` after its capacity map has been populated from `wSizes`. -/
def wManagerCap : Manager :=
  { wManager with capacityByDropletSlug := [("s-1vcpu-1gb", { cpus := 1, memory := 1024 })] }

/-- The node group a refresh builds for `wPool1`. -/
def wGroup1 : NodeGroup :=
  { id := "1", clusterID := "cid", client := 7, nodePool := wPool1, minSize := 1,
    maxSize := 5, cpus := 1, memory := 1024 }

/-- The manager `wManagerCap` with the group for `wPool1` published. -/
def wManagerAfter : Manager := { wManagerCap with nodeGroups := [wGroup1] }

/-- An environment where both external calls succeed. -/
def wEnvOk : RefreshEnv :=
  { listSizes := .ok wSizes, listNodePools := .ok [wPool1, wPool2] }

/-- An environment where the droplet-size listing fails. -/
def wEnvSizesFail : RefreshEnv :=
  { listSizes := .error "sizes api down", listNodePools := .ok [] }

/-- An environment where the node-pool listing fails. -/
def wEnvPoolsFail : RefreshEnv :=
  { listSizes := .ok wSizes, listNodePools := .error "pools api down" }

/-- An environment listing an auto-scalable pool with an unknown size slug. -/
def wEnvMissing : RefreshEnv :=
  { listSizes := .ok wSizes, listNodePools := .ok [wPool1, wPoolMissing] }

/-- An environment listing only pools with auto-scaling disabled. -/
def wEnvNoAuto : RefreshEnv :=
  { listSizes := .ok wSizes, listNodePools := .ok [wPool2] }

/-- A sample valid configuration. -/
def wCfg : Config := { ClusterID := "c", Token := "t", URL := "" }

/-- The manager `newManager` builds from `wCfg` with godo handles `(1, 2)`. -/
def wOkManager : Manager :=
  { client := 1, clusterID := "c", nodeGroups := [], sizeLister := 2,
    capacityByDropletSlug := [] }

/-! ## Helper lemmas -/

theorem ensureCapacityMap_frame (m : Manager) (s : Except String (List Size)) :
    (m.ensureCapacityMap s).1.nodeGroups = m.nodeGroups ∧
    (m.ensureCapacityMap s).1.clusterID = m.clusterID ∧
    (m.ensureCapacityMap s).1.client = m.client ∧
    (m.ensureCapacityMap s).1.sizeLister = m.sizeLister := by
  unfold Manager.ensureCapacityMap
  by_cases h : m.capacityByDropletSlug.isEmpty <;> cases s <;> simp [h]

theorem ensureCapacityMap_nodeGroups_unchanged (m : Manager) (s : Except String (List Size)) :
    (m.ensureCapacityMap s).1.nodeGroups = m.nodeGroups :=
  (ensureCapacityMap_frame m s).1

theorem buildGroups_ok_map (cl : Nat) (cid : String) (cm : List (String × capacity))
    (pools : List KubernetesNodePool) (gs : List NodeGroup)
    (h : buildGroups cl cid cm pools = .ok gs) :
    gs.map NodeGroup.nodePool = pools.filter (fun p => p.AutoScale) := by
  induction pools generalizing gs with
  | nil =>
    simp only [buildGroups, Except.ok.injEq] at h
    simp [← h]
  | cons p rest ih =>
    simp only [buildGroups] at h
    by_cases hA : p.AutoScale
    · simp only [hA, Bool.not_true, Bool.false_eq_true, if_false] at h
      cases hL : mapLookup cm p.Size with
      | none => rw [hL] at h; exact absurd h (by simp)
      | some c =>
        rw [hL] at h
        cases hR : buildGroups cl cid cm rest with
        | error e => rw [hR] at h; exact absurd h (by simp)
        | ok gs' =>
          rw [hR] at h
          simp only [Except.ok.injEq] at h
          subst h
          simp [List.filter, hA, ih gs' hR]
    · simp only [Bool.not_eq_true] at hA
      simp only [hA, Bool.not_false, if_true] at h
      simp [List.filter, hA, ih gs h]

theorem buildGroups_ok_fields (cl : Nat) (cid : String) (cm : List (String × capacity))
    (pools : List KubernetesNodePool) (gs : List NodeGroup)
    (h : buildGroups cl cid cm pools = .ok gs) :
    ∀ g ∈ gs, g.nodePool.AutoScale = true ∧ g.id = g.nodePool.ID ∧
      g.clusterID = cid ∧ g.client = cl ∧
      g.minSize = g.nodePool.MinNodes ∧ g.maxSize = g.nodePool.MaxNodes ∧
      mapLookup cm g.nodePool.Size = some { cpus := g.cpus, memory := g.memory } := by
  induction pools generalizing gs with
  | nil =>
    simp only [buildGroups, Except.ok.injEq] at h
    simp [← h]
  | cons p rest ih =>
    simp only [buildGroups] at h
    by_cases hA : p.AutoScale
    · simp only [hA, Bool.not_true, Bool.false_eq_true, if_false] at h
      cases hL : mapLookup cm p.Size with
      | none => rw [hL] at h; exact absurd h (by simp)
      | some c =>
        rw [hL] at h
        cases hR : buildGroups cl cid cm rest with
        | error e => rw [hR] at h; exact absurd h (by simp)
        | ok gs' =>
          rw [hR] at h
          simp only [Except.ok.injEq] at h
          subst h
          intro g hg
          rcases List.mem_cons.mp hg with hg | hg
          · subst hg
            refine ⟨hA, rfl, rfl, rfl, rfl, rfl, ?_⟩
            simpa using hL
          · exact ih gs' hR g hg
    · simp only [Bool.not_eq_true] at hA
      simp only [hA, Bool.not_false, if_true] at h
      exact ih gs h

theorem buildGroups_missing_capacity (cl : Nat) (cid : String)
    (cm : List (String × capacity)) (pools : List KubernetesNodePool)
    (p : KubernetesNodePool) (hmem : p ∈ pools) (hauto : p.AutoScale = true)
    (hmiss : mapLookup cm p.Size = none) :
    ∃ e, buildGroups cl cid cm pools = .error e := by
  induction pools with
  | nil => cases hmem
  | cons q rest ih =>
    rcases List.mem_cons.mp hmem with hq | hq
    · subst hq
      refine ⟨noCapacityDataError p.Size, ?_⟩
      simp [buildGroups, hauto, hmiss]
    · rcases ih hq with ⟨e, he⟩
      by_cases hA : q.AutoScale
      · cases hL : mapLookup cm q.Size with
        | none => exact ⟨noCapacityDataError q.Size, by simp [buildGroups, hA, hL]⟩
        | some c => exact ⟨e, by simp [buildGroups, hA, hL, he]⟩
      · simp only [Bool.not_eq_true] at hA
        exact ⟨e, by simp [buildGroups, hA, he]⟩

theorem buildGroups_no_autoscale (cl : Nat) (cid : String)
    (cm : List (String × capacity)) (pools : List KubernetesNodePool)
    (hall : ∀ p ∈ pools, p.AutoScale = false) :
    buildGroups cl cid cm pools = .ok [] := by
  induction pools with
  | nil => rfl
  | cons p rest ih =>
    have hp := hall p (List.mem_cons_self p rest)
    simp only [buildGroups, hp, Bool.not_false, if_true]
    exact ih fun q hq => hall q (List.mem_cons_of_mem p hq)

theorem ensureCapacityMap_set_nodeGroups (m : Manager) (s : Except String (List Size))
    (g0 : List NodeGroup) :
    Manager.ensureCapacityMap { m with nodeGroups := g0 } s =
      ({ (m.ensureCapacityMap s).1 with nodeGroups := g0 }, (m.ensureCapacityMap s).2) := by
  unfold Manager.ensureCapacityMap
  by_cases h : m.capacityByDropletSlug.isEmpty <;> cases s <;> simp [h]

theorem RefreshCounted_ensure_error (m : Manager) (env : RefreshEnv) (m1 : Manager)
    (e : String) (hE : m.ensureCapacityMap env.listSizes = (m1, some e)) :
    RefreshCounted m env = ((m1, some e), 0) := by
  simp only [RefreshCounted, hE]

theorem RefreshCounted_list_error (m : Manager) (env : RefreshEnv) (m1 : Manager)
    (e : String) (hE : m.ensureCapacityMap env.listSizes = (m1, none))
    (hL : env.listNodePools = .error e) :
    RefreshCounted m env = ((m1, some e), 1) := by
  simp only [RefreshCounted, hE, hL]

theorem RefreshCounted_build_error (m : Manager) (env : RefreshEnv) (m1 : Manager)
    (pools : List KubernetesNodePool) (e : String)
    (hE : m.ensureCapacityMap env.listSizes = (m1, none))
    (hL : env.listNodePools = .ok pools)
    (hB : buildGroups m1.client m1.clusterID m1.capacityByDropletSlug pools = .error e) :
    RefreshCounted m env = ((m1, some e), 1) := by
  simp only [RefreshCounted, hE, hL, hB]

theorem RefreshCounted_build_ok (m : Manager) (env : RefreshEnv) (m1 : Manager)
    (pools : List KubernetesNodePool) (gs : List NodeGroup)
    (hE : m.ensureCapacityMap env.listSizes = (m1, none))
    (hL : env.listNodePools = .ok pools)
    (hB : buildGroups m1.client m1.clusterID m1.capacityByDropletSlug pools = .ok gs) :
    RefreshCounted m env = (({ m1 with nodeGroups := gs }, none), 1) := by
  simp only [RefreshCounted, hE, hL, hB]

theorem Refresh_ok_elim (m m' : Manager) (env : RefreshEnv)
    (hok : m.Refresh env = (m', none)) :
    ∃ m1 pools gs, m.ensureCapacityMap env.listSizes = (m1, none) ∧
      env.listNodePools = Except.ok pools ∧
      buildGroups m1.client m1.clusterID m1.capacityByDropletSlug pools = .ok gs ∧
      m' = { m1 with nodeGroups := gs } := by
  rcases hE : m.ensureCapacityMap env.listSizes with ⟨m1, e1⟩
  unfold Manager.Refresh at hok
  cases e1 with
  | some e =>
    rw [RefreshCounted_ensure_error m env m1 e hE] at hok
    exact absurd hok (by simp)
  | none =>
    cases hL : env.listNodePools with
    | error e =>
      rw [RefreshCounted_list_error m env m1 e hE hL] at hok
      exact absurd hok (by simp)
    | ok pools =>
      cases hB : buildGroups m1.client m1.clusterID m1.capacityByDropletSlug pools with
      | error e =>
        rw [RefreshCounted_build_error m env m1 pools e hE hL hB] at hok
        exact absurd hok (by simp)
      | ok gs =>
        rw [RefreshCounted_build_ok m env m1 pools gs hE hL hB] at hok
        simp only [Prod.mk.injEq] at hok
        exact ⟨m1, pools, gs, rfl, rfl, hB, hok.1.symm⟩

theorem Refresh_error_state (m : Manager) (env : RefreshEnv)
    (h : (m.Refresh env).2 ≠ none) :
    (m.Refresh env).1 = (m.ensureCapacityMap env.listSizes).1 := by
  rcases hE : m.ensureCapacityMap env.listSizes with ⟨m1, e1⟩
  unfold Manager.Refresh at h ⊢
  cases e1 with
  | some e =>
    rw [RefreshCounted_ensure_error m env m1 e hE]
  | none =>
    cases hL : env.listNodePools with
    | error e => rw [RefreshCounted_list_error m env m1 e hE hL]
    | ok pools =>
      cases hB : buildGroups m1.client m1.clusterID m1.capacityByDropletSlug pools with
      | error e => rw [RefreshCounted_build_error m env m1 pools e hE hL hB]
      | ok gs =>
        rw [RefreshCounted_build_ok m env m1 pools gs hE hL hB] at h
        exact absurd rfl h

theorem Refresh_nodeGroups_independent (m : Manager) (env : RefreshEnv)
    (g0 : List NodeGroup) :
    (Manager.Refresh { m with nodeGroups := g0 } env).2 = (m.Refresh env).2 ∧
    ((m.Refresh env).2 = none →
      Manager.Refresh { m with nodeGroups := g0 } env = m.Refresh env) := by
  rcases hE : m.ensureCapacityMap env.listSizes with ⟨m1, e1⟩
  have hE' := ensureCapacityMap_set_nodeGroups m env.listSizes g0
  rw [hE] at hE'
  unfold Manager.Refresh
  cases e1 with
  | some e =>
    rw [RefreshCounted_ensure_error m env m1 e hE]
    rw [RefreshCounted_ensure_error { m with nodeGroups := g0 } env
      { m1 with nodeGroups := g0 } e hE']
    simp
  | none =>
    cases hL : env.listNodePools with
    | error e =>
      rw [RefreshCounted_list_error m env m1 e hE hL]
      rw [RefreshCounted_list_error { m with nodeGroups := g0 } env
        { m1 with nodeGroups := g0 } e hE' hL]
      simp
    | ok pools =>
      cases hB : buildGroups m1.client m1.clusterID m1.capacityByDropletSlug pools with
      | error e =>
        rw [RefreshCounted_build_error m env m1 pools e hE hL hB]
        rw [RefreshCounted_build_error { m with nodeGroups := g0 } env
          { m1 with nodeGroups := g0 } pools e hE' hL hB]
        simp
      | ok gs =>
        rw [RefreshCounted_build_ok m env m1 pools gs hE hL hB]
        rw [RefreshCounted_build_ok { m with nodeGroups := g0 } env
          { m1 with nodeGroups := g0 } pools gs hE' hL hB]
        simp

/-! ## Claim theorems -/

/-- Claim C1: for every manager state and every outcome of the external calls,
if `Manager.Refresh` returns an error (from ensuring the capacity table, from
listing node pools, or from a capacity lookup), then the cached node-group
list after the call is exactly the list cached before the call; a new list is
published only when `Refresh` returns nil. -/
theorem Refresh_error_preserves_nodeGroups (m : Manager) (env : RefreshEnv) (e : String)
    (h : (m.Refresh env).2 = some e) :
    (m.Refresh env).1.nodeGroups = m.nodeGroups := by
  have hs : (m.Refresh env).2 ≠ none := by rw [h]; exact Option.some_ne_none e
  rw [Refresh_error_state m env hs]
  exact ensureCapacityMap_nodeGroups_unchanged m env.listSizes

/-- Claim C1 witness: a refresh whose size listing fails leaves the cache as it was. -/
theorem Refresh_error_preserves_nodeGroups_witness :
    (wManager.Refresh wEnvSizesFail).1.nodeGroups = wManager.nodeGroups :=
  Refresh_error_preserves_nodeGroups wManager wEnvSizesFail "sizes api down" (by decide)

/-- Claim C2: a successful `Manager.Refresh` publishes a node-group list with
one entry for each pool whose `AutoScale` flag is true and no entry for any
pool whose `AutoScale` flag is false: the underlying pools of the published
groups are exactly the auto-scalable pools of the listing. -/
theorem Refresh_publishes_exactly_autoscale_pools (m m' : Manager) (env : RefreshEnv)
    (pools : List KubernetesNodePool)
    (hok : m.Refresh env = (m', none))
    (hp : env.listNodePools = Except.ok pools) :
    m'.nodeGroups.map NodeGroup.nodePool = pools.filter (fun p => p.AutoScale) := by
  obtain ⟨m1, pools', gs, hE, hL, hB, hm'⟩ := Refresh_ok_elim m m' env hok
  rw [hp] at hL
  injection hL with hpp
  subst hpp
  subst hm'
  exact buildGroups_ok_map _ _ _ _ _ hB

/-- Claim C2 witness: evaluated on a listing with one auto-scalable and one
disabled pool. -/
theorem Refresh_publishes_exactly_autoscale_pools_witness :
    wManagerAfter.nodeGroups.map NodeGroup.nodePool =
      [wPool1, wPool2].filter (fun p => p.AutoScale) :=
  Refresh_publishes_exactly_autoscale_pools wManager wManagerAfter wEnvOk
    [wPool1, wPool2] (by decide) (by decide)

/-- Claim C3: if the capacity table was populated, the pool listing succeeded,
and some listed pool has `AutoScale` true but its size slug is not a key of
the capacity table, then `Manager.Refresh` returns an error. -/
theorem Refresh_fails_on_missing_capacity (m m1 : Manager) (env : RefreshEnv)
    (pools : List KubernetesNodePool) (p : KubernetesNodePool)
    (hens : m.ensureCapacityMap env.listSizes = (m1, none))
    (hp : env.listNodePools = Except.ok pools)
    (hmem : p ∈ pools) (hauto : p.AutoScale = true)
    (hmiss : mapLookup m1.capacityByDropletSlug p.Size = none) :
    ((m.Refresh env).2).isSome = true := by
  obtain ⟨e, he⟩ := buildGroups_missing_capacity m1.client m1.clusterID
    m1.capacityByDropletSlug pools p hmem hauto hmiss
  unfold Manager.Refresh
  rw [RefreshCounted_build_error m env m1 pools e hens hp he]
  rfl

/-- Claim C3 witness: a refresh over a pool with the unknown slug fails. -/
theorem Refresh_fails_on_missing_capacity_witness :
    ((wManager.Refresh wEnvMissing).2).isSome = true :=
  Refresh_fails_on_missing_capacity wManager wManagerCap wEnvMissing
    [wPool1, wPoolMissing] wPoolMissing (by decide) (by decide) (by decide)
    (by decide) (by decide)

/-- Claim C4: if ensuring the capacity table and listing node pools both
succeed and no listed pool has `AutoScale` true (including an empty listing),
`Manager.Refresh` returns nil and the cached node-group list becomes empty. -/
theorem Refresh_no_autoscale_pools_ok_empty (m m1 : Manager) (env : RefreshEnv)
    (pools : List KubernetesNodePool)
    (hens : m.ensureCapacityMap env.listSizes = (m1, none))
    (hp : env.listNodePools = Except.ok pools)
    (hall : ∀ p ∈ pools, p.AutoScale = false) :
    (m.Refresh env).2 = none ∧ (m.Refresh env).1.nodeGroups = [] := by
  have hB := buildGroups_no_autoscale m1.client m1.clusterID
    m1.capacityByDropletSlug pools hall
  unfold Manager.Refresh
  rw [RefreshCounted_build_ok m env m1 pools [] hens hp hB]
  exact ⟨rfl, rfl⟩

/-- Claim C4 witness: a refresh over a single non-auto-scalable pool. -/
theorem Refresh_no_autoscale_pools_ok_empty_witness :
    (wManager.Refresh wEnvNoAuto).2 = none ∧
      (wManager.Refresh wEnvNoAuto).1.nodeGroups = [] :=
  Refresh_no_autoscale_pools_ok_empty wManager wManagerCap wEnvNoAuto [wPool2]
    (by decide) (by decide) (by decide)

/-- Claim C5: after two consecutive successful refreshes the cached list is
exactly the list built from the second call's node-pool listing (and the
capacity table) alone — replacing the initial cache by any list `g0` changes
nothing — so the previous list is fully replaced, with no accumulation. -/
theorem Refresh_full_replacement (m m1 m2 : Manager) (env1 env2 : RefreshEnv)
    (pools2 : List KubernetesNodePool) (g0 : List NodeGroup)
    (h1 : m.Refresh env1 = (m1, none))
    (h2 : m1.Refresh env2 = (m2, none))
    (hp : env2.listNodePools = Except.ok pools2) :
    buildGroups m2.client m2.clusterID m2.capacityByDropletSlug pools2 =
      Except.ok m2.nodeGroups ∧
    (Manager.Refresh (Manager.Refresh { m with nodeGroups := g0 } env1).1
      env2).1.nodeGroups = m2.nodeGroups := by
  have hind := (Refresh_nodeGroups_independent m env1 g0).2 (by rw [h1])
  constructor
  · obtain ⟨m1', pools', gs, hE, hL, hB, hm2⟩ := Refresh_ok_elim m1 m2 env2 h2
    rw [hp] at hL
    injection hL with hpp
    subst hpp
    subst hm2
    exact hB
  · rw [hind, h1]
    simp [h2]

/-- Claim C5 witness: two consecutive successful refreshes from concrete data,
with the initial cache replaced by a nonempty list. -/
theorem Refresh_full_replacement_witness :
    (buildGroups wManagerCap.client wManagerCap.clusterID
        wManagerCap.capacityByDropletSlug [wPool2] = Except.ok wManagerCap.nodeGroups) ∧
    (Manager.Refresh (Manager.Refresh { wManager with nodeGroups := [wGroup1] } wEnvOk).1
      wEnvNoAuto).1.nodeGroups = wManagerCap.nodeGroups :=
  Refresh_full_replacement wManager wManagerAfter wManagerCap wEnvOk wEnvNoAuto
    [wPool2] [wGroup1] (by decide) (by decide) (by decide)

/-- Claim C6: every node-group entry published by a successful
`Manager.Refresh` carries the id of its pool, the manager's cluster
identifier (and client), the pool's min/max node bounds, and the cpus and
memory of the capacity-table entry for the pool's size slug. -/
theorem Refresh_entry_fields (m m' : Manager) (env : RefreshEnv)
    (pools : List KubernetesNodePool) (g : NodeGroup)
    (hok : m.Refresh env = (m', none))
    (hp : env.listNodePools = Except.ok pools)
    (hg : g ∈ m'.nodeGroups) :
    g.nodePool ∈ pools ∧ g.nodePool.AutoScale = true ∧ g.id = g.nodePool.ID ∧
    g.clusterID = m.clusterID ∧ g.client = m.client ∧
    g.minSize = g.nodePool.MinNodes ∧ g.maxSize = g.nodePool.MaxNodes ∧
    mapLookup m'.capacityByDropletSlug g.nodePool.Size =
      some { cpus := g.cpus, memory := g.memory } := by
  obtain ⟨m1, pools', gs, hE, hL, hB, hm'⟩ := Refresh_ok_elim m m' env hok
  rw [hp] at hL
  injection hL with hpp
  subst hpp
  subst hm'
  have hg' : g ∈ gs := hg
  have hmap := buildGroups_ok_map _ _ _ _ _ hB
  obtain ⟨hauto, hid, hcid, hcl, hmin, hmax, hcap⟩ :=
    buildGroups_ok_fields _ _ _ _ _ hB g hg'
  have hframe := ensureCapacityMap_frame m env.listSizes
  rw [hE] at hframe
  refine ⟨?_, hauto, hid, ?_, ?_, hmin, hmax, hcap⟩
  · exact List.mem_of_mem_filter (hmap ▸ List.mem_map_of_mem NodeGroup.nodePool hg')
  · exact hcid.trans hframe.2.1
  · exact hcl.trans hframe.2.2.1

/-- Claim C6 witness: the group published for `wPool1` carries its pool data
and the capacity of its slug. -/
theorem Refresh_entry_fields_witness :
    wGroup1.nodePool ∈ [wPool1, wPool2] ∧ wGroup1.nodePool.AutoScale = true ∧
    wGroup1.id = wGroup1.nodePool.ID ∧
    wGroup1.clusterID = wManager.clusterID ∧ wGroup1.client = wManager.client ∧
    wGroup1.minSize = wGroup1.nodePool.MinNodes ∧
    wGroup1.maxSize = wGroup1.nodePool.MaxNodes ∧
    mapLookup wManagerAfter.capacityByDropletSlug wGroup1.nodePool.Size =
      some { cpus := wGroup1.cpus, memory := wGroup1.memory } :=
  Refresh_entry_fields wManager wManagerAfter wEnvOk [wPool1, wPool2] wGroup1
    (by decide) (by decide) (by decide)

/-- Claim C7: `Manager.Refresh` never modifies the configuration-derived
fields: on every call, successful or failing, `clusterID`, `client` and
`sizeLister` keep their values. -/
theorem Refresh_preserves_config_fields (m : Manager) (env : RefreshEnv) :
    (m.Refresh env).1.clusterID = m.clusterID ∧
    (m.Refresh env).1.client = m.client ∧
    (m.Refresh env).1.sizeLister = m.sizeLister := by
  rcases hE : m.ensureCapacityMap env.listSizes with ⟨m1, e1⟩
  have hframe := ensureCapacityMap_frame m env.listSizes
  rw [hE] at hframe
  obtain ⟨-, hcid, hcl, hsl⟩ := hframe
  unfold Manager.Refresh
  cases e1 with
  | some e =>
    rw [RefreshCounted_ensure_error m env m1 e hE]
    exact ⟨hcid, hcl, hsl⟩
  | none =>
    cases hL : env.listNodePools with
    | error e =>
      rw [RefreshCounted_list_error m env m1 e hE hL]
      exact ⟨hcid, hcl, hsl⟩
    | ok pools =>
      cases hB : buildGroups m1.client m1.clusterID m1.capacityByDropletSlug pools with
      | error e =>
        rw [RefreshCounted_build_error m env m1 pools e hE hL hB]
        exact ⟨hcid, hcl, hsl⟩
      | ok gs =>
        rw [RefreshCounted_build_ok m env m1 pools gs hE hL hB]
        exact ⟨hcid, hcl, hsl⟩

/-- Claim C8: within a single `Manager.Refresh` call, `ListNodePools` is
invoked at most once, and if it fails the call returns exactly the error
value `ListNodePools` produced, unmodified. -/
theorem Refresh_no_retry_propagates_list_error (m : Manager) (env : RefreshEnv) :
    (RefreshCounted m env).2 ≤ 1 ∧
    (∀ m1 e, m.ensureCapacityMap env.listSizes = (m1, none) →
      env.listNodePools = Except.error e →
      m.Refresh env = (m1, some e)) := by
  constructor
  · rcases hE : m.ensureCapacityMap env.listSizes with ⟨m1, e1⟩
    cases e1 with
    | some e =>
      rw [RefreshCounted_ensure_error m env m1 e hE]
      exact Nat.zero_le 1
    | none =>
      cases hL : env.listNodePools with
      | error e =>
        rw [RefreshCounted_list_error m env m1 e hE hL]
      | ok pools =>
        cases hB : buildGroups m1.client m1.clusterID m1.capacityByDropletSlug pools with
        | error e =>
          rw [RefreshCounted_build_error m env m1 pools e hE hL hB]
        | ok gs =>
          rw [RefreshCounted_build_ok m env m1 pools gs hE hL hB]
  · intro m1 e hE hL
    unfold Manager.Refresh
    rw [RefreshCounted_list_error m env m1 e hE hL]

/-- Claim C8 witness: a failing pool listing is propagated verbatim after a
single invocation. -/
theorem Refresh_no_retry_propagates_list_error_witness :
    (RefreshCounted wManager wEnvPoolsFail).2 ≤ 1 ∧
    wManager.Refresh wEnvPoolsFail = (wManagerCap, some "pools api down") :=
  ⟨(Refresh_no_retry_propagates_list_error wManager wEnvPoolsFail).1,
   (Refresh_no_retry_propagates_list_error wManager wEnvPoolsFail).2 wManagerCap
     "pools api down" (by decide) (by decide)⟩

/-- Claim C9: a successful `Manager.Refresh` lists the retained
(auto-scalable) pools in the same relative order in which they appear in the
`ListNodePools` result. -/
theorem Refresh_preserves_pool_order (m m' : Manager) (env : RefreshEnv)
    (pools : List KubernetesNodePool)
    (hok : m.Refresh env = (m', none))
    (hp : env.listNodePools = Except.ok pools) :
    m'.nodeGroups.map (fun g => g.id) =
      (pools.filter (fun p => p.AutoScale)).map (fun p => p.ID) := by
  obtain ⟨m1, pools', gs, hE, hL, hB, hm'⟩ := Refresh_ok_elim m m' env hok
  rw [hp] at hL
  injection hL with hpp
  subst hpp
  subst hm'
  have hmap := buildGroups_ok_map _ _ _ _ _ hB
  have hfields := buildGroups_ok_fields _ _ _ _ _ hB
  show gs.map (fun g => g.id) = _
  calc gs.map (fun g => g.id)
      = gs.map (fun g => g.nodePool.ID) :=
        List.map_congr_left fun g hg => (hfields g hg).2.1
    _ = (gs.map NodeGroup.nodePool).map (fun p => p.ID) := by
        rw [List.map_map]
        exact rfl
    _ = (pools.filter (fun p => p.AutoScale)).map (fun p => p.ID) := by rw [hmap]

/-- Claim C9 witness: evaluated on the two-pool listing. -/
theorem Refresh_preserves_pool_order_witness :
    wManagerAfter.nodeGroups.map (fun g => g.id) =
      ([wPool1, wPool2].filter (fun p => p.AutoScale)).map (fun p => p.ID) :=
  Refresh_preserves_pool_order wManager wManagerAfter wEnvOk [wPool1, wPool2]
    (by decide) (by decide)

/-- Claim C10: `newManager` returns an error whenever the parsed configuration
has an empty access token or an empty cluster ID (in particular when the
config reader is nil, so both are empty); when it succeeds, the returned
manager starts with an empty node-group list and an empty capacity table. -/
theorem newManager_validates_config (input : ConfigInput) (g : Except String (Nat × Nat)) :
    (∀ cfg, input = ConfigInput.parsed cfg → (cfg.Token = "" ∨ cfg.ClusterID = "") →
      (newManager input g).toOption = none) ∧
    (input = ConfigInput.nilReader → (newManager input g).toOption = none) ∧
    (∀ m, newManager input g = Except.ok m →
      m.nodeGroups = [] ∧ m.capacityByDropletSlug = []) := by
  refine ⟨?_, ?_, ?_⟩
  · rintro cfg rfl hcfg
    rcases hcfg with h | h
    · simp [newManager, newManagerFromConfig, h, Except.toOption]
    · by_cases ht : cfg.Token = ""
      · simp [newManager, newManagerFromConfig, ht, Except.toOption]
      · simp [newManager, newManagerFromConfig, ht, h, Except.toOption]
  · rintro rfl
    simp [newManager, newManagerFromConfig, Config.zero, Except.toOption]
  · intro mm hm
    cases input with
    | readError e => exact absurd hm (by simp [newManager])
    | unmarshalError e => exact absurd hm (by simp [newManager])
    | nilReader =>
      exact absurd hm (by simp [newManager, newManagerFromConfig, Config.zero])
    | parsed cfg =>
      simp only [newManager, newManagerFromConfig] at hm
      by_cases ht : cfg.Token = ""
      · rw [if_pos ht] at hm
        exact absurd hm (by simp)
      · rw [if_neg ht] at hm
        by_cases hc : cfg.ClusterID = ""
        · rw [if_pos hc] at hm
          exact absurd hm (by simp)
        · rw [if_neg hc] at hm
          cases g with
          | error e => exact absurd hm (by simp)
          | ok ks =>
            obtain ⟨k, s⟩ := ks
            simp at hm
            subst hm
            exact ⟨rfl, rfl⟩

/-- Claim C10 witness: an empty token is rejected, a nil reader is rejected,
and a valid config yields a manager with empty caches. -/
theorem newManager_validates_config_witness :
    (newManager (ConfigInput.parsed { ClusterID := "c", Token := "", URL := "" })
      (Except.ok (1, 2))).toOption = none ∧
    (newManager ConfigInput.nilReader (Except.ok (1, 2))).toOption = none ∧
    (wOkManager.nodeGroups = [] ∧ wOkManager.capacityByDropletSlug = []) :=
  ⟨(newManager_validates_config
      (ConfigInput.parsed { ClusterID := "c", Token := "", URL := "" })
      (Except.ok (1, 2))).1 { ClusterID := "c", Token := "", URL := "" } rfl (Or.inl rfl),
   (newManager_validates_config ConfigInput.nilReader (Except.ok (1, 2))).2.1 rfl,
   (newManager_validates_config (ConfigInput.parsed wCfg) (Except.ok (1, 2))).2.2
     wOkManager (by decide)⟩

end DigitalOcean
